import Mathlib

/-!
Verification of the adaptive clinical-exam platform core
(learner profile store, exam session state machine, recommendation engine).

The Python sources are shallowly embedded:
  * Python dicts (which preserve insertion order) become association lists
    with `dictGet` / `dictSet`;
  * Python floats holding exact ratios become `ℚ`;
  * `datetime` values become abstract `Nat` timestamps (seconds);
  * raised exceptions become `Except PyError`;
  * `list.sort` (stable, comparison-based) becomes `List.insertionSort`.
-/

namespace Med

/-- Errors raised by the Python managers: `ValueError` for a missing
learner/session (`notFound`), `ValueError` for a question index at or past
the question count (`outOfRange`), and `IndexError` from Python list
indexing (`indexError`). -/
inductive PyError where
  | notFound
  | outOfRange
  | indexError
deriving Repr, DecidableEq

/-- Lookup in an insertion-ordered dict modelled as an association list
(first matching key, as in a Python dict with unique keys). -/
def dictGet {α : Type} (d : List (String × α)) (k : String) : Option α :=
  (d.find? (fun p => p.1 == k)).map (fun p => p.2)

/-- `d[k] = v` on an insertion-ordered dict: an existing key keeps its
position, a new key is appended at the end (Python dict semantics). -/
def dictSet {α : Type} (d : List (String × α)) (k : String) (v : α) :
    List (String × α) :=
  match d with
  | [] => [(k, v)]
  | (k2, v2) :: rest =>
      if k2 == k then (k, v) :: rest else (k2, v2) :: dictSet rest k v

/-- The last `n` elements of a list, like Python `l[-n:]`. -/
def lastN {α : Type} (n : Nat) (l : List α) : List α :=
  l.drop (l.length - n)

/-- Python list indexing: a nonnegative index must be below the length,
a negative index counts from the end (`l[-1]` is the last element);
`none` models an `IndexError`. -/
def pyIdx (n : Nat) (i : Int) : Option Nat :=
  if 0 ≤ i then
    if i < (n : Int) then some i.toNat else none
  else
    if 0 ≤ (n : Int) + i then some ((n : Int) + i).toNat else none

/-- The `topic_<slug>` synthetic skill id derived from a topic
(`f"topic_{topic.lower().replace(' ', '_')}"`). -/
def topicSlug (topic : String) : String :=
  "topic_" ++ ((topic.toLower).replace " " "_")

/-! ## learner_profile.py: data model -/

/-- `QuestionAttempt` (learner_profile.py): a single question attempt. -/
structure QuestionAttempt where
  question_id : String
  skill_ids : List String
  topic : String
  difficulty : String
  question_type : String
  correct : Bool
  timestamp : Nat
  time_spent_seconds : Option Int := none
  exam_session_id : Option String := none
deriving Repr, DecidableEq

/-- `SkillPerformance` (learner_profile.py): per-skill aggregate. -/
structure SkillPerformance where
  skill_id : String
  total_attempts : Nat
  correct_attempts : Nat
  accuracy : ℚ
  last_attempted : Nat
  proficiency_level : String
deriving Repr, DecidableEq

/-- `TopicPerformance` (learner_profile.py): per-topic aggregate. -/
structure TopicPerformance where
  topic : String
  total_attempts : Nat
  correct_attempts : Nat
  accuracy : ℚ
  last_attempted : Nat
deriving Repr, DecidableEq

/-- `ExamRecord` (learner_profile.py): record of a completed exam. -/
structure ExamRecord where
  exam_id : String
  mode : String
  total_questions : Nat
  correct_answers : Nat
  score : ℚ
  duration_minutes : ℚ
  completed_at : Nat
  topics_tested : List String
  skills_tested : List String
deriving Repr, DecidableEq

/-- `LearnerProfile` (learner_profile.py). The two `Dict` fields become
insertion-ordered association lists. -/
structure LearnerProfile where
  learner_id : String
  name : String
  role : String
  attempts : List QuestionAttempt := []
  skill_performance : List (String × SkillPerformance) := []
  topic_performance : List (String × TopicPerformance) := []
  exam_history : List ExamRecord := []
  created_at : Nat
  updated_at : Nat
deriving Repr, DecidableEq

/-- The managers' in-memory stores (`self.profiles`, `self.sessions`). -/
abbrev ProfileStore := List (String × LearnerProfile)

/-! ## learner_profile.py: operations -/

/-- `LearnerProfileManager._calculate_proficiency(accuracy, attempts)`. -/
def calculate_proficiency (accuracy : ℚ) (attempts : Nat) : String :=
  if attempts < 2 then
    "novice"
  else if attempts < 4 then
    if accuracy ≥ 1/2 then "beginner" else "novice"
  else if attempts < 8 then
    if accuracy ≥ 4/5 then "advanced"
    else if accuracy ≥ 3/5 then "intermediate"
    else "beginner"
  else
    if accuracy ≥ 17/20 then "expert"
    else if accuracy ≥ 3/4 then "advanced"
    else if accuracy ≥ 3/5 then "intermediate"
    else "beginner"

/-- The fresh `SkillPerformance` created by `record_attempt` when a skill
id is seen for the first time. -/
def freshSkillPerf (skill_id : String) (ts : Nat) : SkillPerformance :=
  { skill_id := skill_id
    total_attempts := 0
    correct_attempts := 0
    accuracy := 0
    last_attempted := ts
    proficiency_level := "novice" }

/-- The in-place update `record_attempt` applies to one `SkillPerformance`:
increment totals, recompute accuracy and the proficiency tier. -/
def stepSkillPerf (perf : SkillPerformance) (correct : Bool) (ts : Nat) :
    SkillPerformance :=
  let total := perf.total_attempts + 1
  let corr := perf.correct_attempts + (if correct then 1 else 0)
  let acc : ℚ := (corr : ℚ) / (total : ℚ)
  { perf with
      total_attempts := total
      correct_attempts := corr
      accuracy := acc
      last_attempted := ts
      proficiency_level := calculate_proficiency acc total }

/-- The skill-aggregate loop of `record_attempt`
(`for skill_id in attempt.skill_ids: ...`). -/
def skillFold (d : List (String × SkillPerformance)) (ids : List String)
    (correct : Bool) (ts : Nat) : List (String × SkillPerformance) :=
  ids.foldl
    (fun d skill_id =>
      let perf := (dictGet d skill_id).getD (freshSkillPerf skill_id ts)
      dictSet d skill_id (stepSkillPerf perf correct ts))
    d

/-- The fresh `TopicPerformance` created on first sight of a topic. -/
def freshTopicPerf (topic : String) (ts : Nat) : TopicPerformance :=
  { topic := topic
    total_attempts := 0
    correct_attempts := 0
    accuracy := 0
    last_attempted := ts }

/-- The in-place update `record_attempt` applies to one `TopicPerformance`. -/
def stepTopicPerf (perf : TopicPerformance) (correct : Bool) (ts : Nat) :
    TopicPerformance :=
  let total := perf.total_attempts + 1
  let corr := perf.correct_attempts + (if correct then 1 else 0)
  { perf with
      total_attempts := total
      correct_attempts := corr
      accuracy := (corr : ℚ) / (total : ℚ)
      last_attempted := ts }

/-- The topic-aggregate part of `record_attempt`
(`topic = attempt.topic.lower().strip(); if topic: ...`). -/
def topicUpdate (d : List (String × TopicPerformance)) (a : QuestionAttempt) :
    List (String × TopicPerformance) :=
  let topic := (a.topic.toLower).trim
  if topic.isEmpty then d
  else
    let perf := (dictGet d topic).getD (freshTopicPerf topic a.timestamp)
    dictSet d topic (stepTopicPerf perf a.correct a.timestamp)

/-- `LearnerProfileManager.record_attempt`, restricted to one profile
(the store-level lookup is in `record_attempt_store`): append the attempt,
fold the skill aggregates over `attempt.skill_ids`, update the topic
aggregate, bump `updated_at`. -/
def record_attempt_profile (p : LearnerProfile) (a : QuestionAttempt)
    (now : Nat) : LearnerProfile :=
  { p with
      attempts := p.attempts ++ [a]
      skill_performance := skillFold p.skill_performance a.skill_ids a.correct a.timestamp
      topic_performance := topicUpdate p.topic_performance a
      updated_at := now }

/-- `LearnerProfileManager.record_attempt`: raises `ValueError` when the
learner id is unknown, otherwise updates that learner's profile. -/
def record_attempt_store (profiles : ProfileStore) (learner_id : String)
    (a : QuestionAttempt) (now : Nat) : Except PyError ProfileStore :=
  match dictGet profiles learner_id with
  | none => .error .notFound
  | some p => .ok (dictSet profiles learner_id (record_attempt_profile p a now))

/-- `LearnerProfileManager.record_exam_completion`. -/
def record_exam_completion_store (profiles : ProfileStore)
    (learner_id : String) (rec : ExamRecord) (now : Nat) :
    Except PyError ProfileStore :=
  match dictGet profiles learner_id with
  | none => .error .notFound
  | some p =>
      .ok (dictSet profiles learner_id
        { p with exam_history := p.exam_history ++ [rec], updated_at := now })

/-- `LearnerProfileManager.create_profile`: idempotent by id. -/
def create_profile (profiles : ProfileStore) (learner_id name role : String)
    (now : Nat) : ProfileStore × LearnerProfile :=
  match dictGet profiles learner_id with
  | some p => (profiles, p)
  | none =>
      let p : LearnerProfile :=
        { learner_id := learner_id, name := name, role := role
          created_at := now, updated_at := now }
      (dictSet profiles learner_id p, p)

/-! ## learner_profile.py: derived queries -/

/-- One entry of the list returned by `get_skill_gaps` / `get_strengths`
(the dict `{"skill_id": ..., "accuracy": ..., "attempts": ...,
"proficiency": ...}`). -/
structure GapEntry where
  skill_id : String
  accuracy : ℚ
  attempts : Nat
  proficiency : String
deriving Repr, DecidableEq

/-- Comparison key of `gaps.sort(key=lambda x: x['accuracy'])`. -/
def gapLE (a b : GapEntry) : Prop := a.accuracy ≤ b.accuracy

instance : DecidableRel gapLE := fun a b => inferInstanceAs (Decidable (a.accuracy ≤ b.accuracy))

instance : IsTotal GapEntry gapLE := ⟨fun a b => le_total a.accuracy b.accuracy⟩

instance : IsTrans GapEntry gapLE := ⟨fun _ _ _ h1 h2 => le_trans h1 h2⟩

/-- Comparison key of `strengths.sort(key=..., reverse=True)`. -/
def gapGE (a b : GapEntry) : Prop := b.accuracy ≤ a.accuracy

instance : DecidableRel gapGE := fun a b => inferInstanceAs (Decidable (b.accuracy ≤ a.accuracy))

instance : IsTotal GapEntry gapGE := ⟨fun a b => (le_total b.accuracy a.accuracy).imp id id⟩

instance : IsTrans GapEntry gapGE := ⟨fun _ _ _ h1 h2 => le_trans h2 h1⟩

/-- `LearnerProfileManager.get_skill_gaps`: skills with accuracy below 0.7
and at least one attempt, ascending by accuracy; `[]` for an unknown
learner. -/
def get_skill_gaps (profiles : ProfileStore) (learner_id : String) :
    List GapEntry :=
  match dictGet profiles learner_id with
  | none => []
  | some p =>
      let gaps := (p.skill_performance.filter
          (fun e => decide (e.2.accuracy < 7/10 ∧ 1 ≤ e.2.total_attempts))).map
        (fun e =>
          { skill_id := e.1
            accuracy := e.2.accuracy
            attempts := e.2.total_attempts
            proficiency := e.2.proficiency_level })
      gaps.insertionSort gapLE

/-- `LearnerProfileManager.get_strengths`: skills with accuracy at least
0.7 and at least one attempt, descending by accuracy. -/
def get_strengths (profiles : ProfileStore) (learner_id : String) :
    List GapEntry :=
  match dictGet profiles learner_id with
  | none => []
  | some p =>
      let strengths := (p.skill_performance.filter
          (fun e => decide (7/10 ≤ e.2.accuracy ∧ 1 ≤ e.2.total_attempts))).map
        (fun e =>
          { skill_id := e.1
            accuracy := e.2.accuracy
            attempts := e.2.total_attempts
            proficiency := e.2.proficiency_level })
      strengths.insertionSort gapGE

/-- Python `str.title()`: the first letter of every alphabetic run is
upper-cased, the following letters lower-cased. -/
def pyTitle (s : String) : String :=
  String.mk (s.data.foldl
    (fun (acc : List Char × Bool) c =>
      if c.isAlpha then
        (acc.1 ++ [if acc.2 then c.toLower else c.toUpper], true)
      else
        (acc.1 ++ [c], false))
    ([], false)).1

/-- One entry of the lists returned by `get_topic_strengths` /
`get_topic_weaknesses`. -/
structure TopicEntry where
  topic : String
  accuracy : ℚ
  attempts : Nat
  correct : Nat
deriving Repr, DecidableEq

/-- Comparison key of the ascending topic sort. -/
def topicLE (a b : TopicEntry) : Prop := a.accuracy ≤ b.accuracy

instance : DecidableRel topicLE := fun a b => inferInstanceAs (Decidable (a.accuracy ≤ b.accuracy))

instance : IsTotal TopicEntry topicLE := ⟨fun a b => le_total a.accuracy b.accuracy⟩

instance : IsTrans TopicEntry topicLE := ⟨fun _ _ _ h1 h2 => le_trans h1 h2⟩

/-- Comparison key of the descending topic sort. -/
def topicGE (a b : TopicEntry) : Prop := b.accuracy ≤ a.accuracy

instance : DecidableRel topicGE := fun a b => inferInstanceAs (Decidable (b.accuracy ≤ a.accuracy))

instance : IsTotal TopicEntry topicGE := ⟨fun a b => (le_total b.accuracy a.accuracy).imp id id⟩

instance : IsTrans TopicEntry topicGE := ⟨fun _ _ _ h1 h2 => le_trans h2 h1⟩

/-- `LearnerProfileManager.get_topic_weaknesses`. -/
def get_topic_weaknesses (profiles : ProfileStore) (learner_id : String) :
    List TopicEntry :=
  match dictGet profiles learner_id with
  | none => []
  | some p =>
      let ws := (p.topic_performance.filter
          (fun e => decide (e.2.accuracy < 7/10 ∧ 1 ≤ e.2.total_attempts))).map
        (fun e =>
          { topic := pyTitle e.1
            accuracy := e.2.accuracy
            attempts := e.2.total_attempts
            correct := e.2.correct_attempts })
      ws.insertionSort topicLE

/-- `LearnerProfileManager.get_topic_strengths`. -/
def get_topic_strengths (profiles : ProfileStore) (learner_id : String) :
    List TopicEntry :=
  match dictGet profiles learner_id with
  | none => []
  | some p =>
      let ss := (p.topic_performance.filter
          (fun e => decide (7/10 ≤ e.2.accuracy ∧ 1 ≤ e.2.total_attempts))).map
        (fun e =>
          { topic := pyTitle e.1
            accuracy := e.2.accuracy
            attempts := e.2.total_attempts
            correct := e.2.correct_attempts })
      ss.insertionSort topicGE

/-- Round-half-to-even to an integer (the rounding of Python `round`
applied to an exactly represented value). -/
def roundHalfEven (x : ℚ) : ℤ :=
  let f := ⌊x⌋
  let r := x - (f : ℚ)
  if r < 1/2 then f
  else if 1/2 < r then f + 1
  else if f % 2 = 0 then f else f + 1

/-- Python `round(x, 1)` on an exact value. -/
def roundTo1 (x : ℚ) : ℚ := (roundHalfEven (x * 10) : ℚ) / 10

/-- Python `round(x, 2)` on an exact value. -/
def roundTo2 (x : ℚ) : ℚ := (roundHalfEven (x * 100) : ℚ) / 100

/-! ## exam_session.py: data model -/

/-- `ExamQuestion` (exam_session.py). The opaque `question_data` dict is
modelled as a string-to-string association list (only its `"rationale"`
key is ever read). -/
structure ExamQuestion where
  question_id : String
  topic : String
  difficulty : String
  question_type : String
  skill_ids : List String
  question_data : List (String × String) := []
  user_answer : Option String := none
  correct_answer : String
  is_correct : Option Bool := none
  time_spent_seconds : Option Int := none
  timestamp : Option Nat := none
deriving Repr, DecidableEq

/-- `ExamSession` (exam_session.py). -/
structure ExamSession where
  session_id : String
  learner_id : String
  mode : String
  total_questions : Nat
  time_limit_minutes : Option Nat := none
  questions : List ExamQuestion := []
  current_question_index : Nat := 0
  start_time : Nat
  end_time : Option Nat := none
  score : Option ℚ := none
  status : String := "in_progress"
deriving Repr, DecidableEq

/-- `ExamSessionManager.sessions`. -/
abbrev SessionStore := List (String × ExamSession)

/-- The dict returned by `ExamSessionManager.submit_answer`. -/
structure SubmitResult where
  is_correct : Bool
  correct_answer : String
  rationale : String
deriving Repr, DecidableEq

/-- The dict returned by `ExamSessionManager.complete_session`. -/
structure CompleteResult where
  score : ℚ
  correct : Nat
  total : Nat
  duration_minutes : ℚ
deriving Repr, DecidableEq

/-! ## exam_session.py: operations -/

/-- `ExamSessionManager.add_question_to_session`: empty `skill_ids` are
replaced by the topic-derived synthetic id, then the fresh question is
appended. -/
def add_question_to_session (sessions : SessionStore) (session_id : String)
    (question_id topic difficulty question_type : String)
    (skill_ids : List String) (question_data : List (String × String))
    (correct_answer : String) : Except PyError SessionStore :=
  match dictGet sessions session_id with
  | none => .error .notFound
  | some session =>
      let ids := if skill_ids.isEmpty then [topicSlug topic] else skill_ids
      let q : ExamQuestion :=
        { question_id := question_id
          topic := topic
          difficulty := difficulty
          question_type := question_type
          skill_ids := ids
          question_data := question_data
          correct_answer := correct_answer }
      .ok (dictSet sessions session_id
        { session with questions := session.questions ++ [q] })

/-- The field mutations `submit_answer` applies to the looked-up question. -/
def answeredQuestion (q : ExamQuestion) (user_answer : String)
    (time_spent_seconds : Int) (now : Nat) : ExamQuestion :=
  { q with
      user_answer := some user_answer
      time_spent_seconds := some time_spent_seconds
      timestamp := some now
      is_correct := some (user_answer == q.correct_answer) }

/-- The `QuestionAttempt` that `submit_answer` forwards to the profile
store, built from the mutated question (with the empty-`skill_ids`
fallback of exam_session.py line 161). -/
def attemptOfQuestion (q : ExamQuestion) (session_id : String)
    (time_spent_seconds : Int) (now : Nat) : QuestionAttempt :=
  { question_id := q.question_id
    skill_ids := if q.skill_ids.isEmpty then [topicSlug q.topic] else q.skill_ids
    topic := q.topic
    difficulty := q.difficulty
    question_type := q.question_type
    correct := q.is_correct.getD false
    timestamp := now
    time_spent_seconds := some time_spent_seconds
    exam_session_id := some session_id }

/-- `ExamSessionManager.submit_answer`: `ValueError` for a missing session,
`ValueError` for an index at or past the question count, Python negative
indexing otherwise; the forward to `record_attempt` is best-effort (a
failure leaves the profile store untouched). -/
def submit_answer (sessions : SessionStore) (profiles : ProfileStore)
    (session_id : String) (question_index : Int) (user_answer : String)
    (time_spent_seconds : Int) (now : Nat) :
    Except PyError (SessionStore × ProfileStore × SubmitResult) :=
  match dictGet sessions session_id with
  | none => .error .notFound
  | some session =>
      if (session.questions.length : Int) ≤ question_index then
        .error .outOfRange
      else
        match pyIdx session.questions.length question_index with
        | none => .error .indexError
        | some j =>
            match session.questions[j]? with
            | none => .error .indexError
            | some q =>
                let q2 := answeredQuestion q user_answer time_spent_seconds now
                let session2 := { session with questions := session.questions.set j q2 }
                let attempt := attemptOfQuestion q2 session_id time_spent_seconds now
                let profiles2 :=
                  match record_attempt_store profiles session.learner_id attempt now with
                  | .ok ps => ps
                  | .error _ => profiles
                .ok (dictSet sessions session_id session2, profiles2,
                  { is_correct := user_answer == q.correct_answer
                    correct_answer := q.correct_answer
                    rationale := (dictGet q.question_data "rationale").getD "" })

/-- `ExamSessionManager.complete_session`: stamps the end time, sets the
status to `"completed"`, computes `score = correct/total*100` (0 when the
session has no questions), forwards an `ExamRecord` best-effort, and
returns score/correct/total/duration. -/
def complete_session (sessions : SessionStore) (profiles : ProfileStore)
    (session_id : String) (now : Nat) :
    Except PyError (SessionStore × ProfileStore × CompleteResult) :=
  match dictGet sessions session_id with
  | none => .error .notFound
  | some session =>
      let total := session.questions.length
      let correct := (session.questions.filter (fun q => q.is_correct == some true)).length
      let score : ℚ := if 0 < total then (correct : ℚ) / (total : ℚ) * 100 else 0
      let session2 :=
        { session with end_time := some now, status := "completed", score := some score }
      let duration_minutes : ℚ := ((now : ℚ) - (session.start_time : ℚ)) / 60
      let exrec : ExamRecord :=
        { exam_id := session_id
          mode := session.mode
          total_questions := total
          correct_answers := correct
          score := score
          duration_minutes := roundTo2 duration_minutes
          completed_at := now
          topics_tested := (session.questions.map (fun q => q.topic)).eraseDups
          skills_tested := ((session.questions.map
            (fun q => if q.skill_ids.isEmpty then [topicSlug q.topic] else q.skill_ids)).flatten).eraseDups }
      let profiles2 :=
        match record_exam_completion_store profiles session.learner_id exrec now with
        | .ok ps => ps
        | .error _ => profiles
      .ok (dictSet sessions session_id session2, profiles2,
        { score := score
          correct := correct
          total := total
          duration_minutes := duration_minutes })

/-- `ExamSessionManager.get_adaptive_next_difficulty`: `"intermediate"` for
a missing session or fewer than 3 questions; otherwise the 2-out-of-3 rule
over the last 3 answered questions, stepping from the difficulty of the
most recent answered question. -/
def get_adaptive_next_difficulty (sessions : SessionStore)
    (session_id : String) : String :=
  match dictGet sessions session_id with
  | none => "intermediate"
  | some session =>
      if session.questions.length < 3 then "intermediate"
      else
        let recent := lastN 3 (session.questions.filter (fun q => q.is_correct.isSome))
        if recent.isEmpty then "intermediate"
        else
          let correct_count := (recent.filter (fun q => q.is_correct == some true)).length
          let current_diff :=
            match recent.getLast? with
            | some q => q.difficulty
            | none => "intermediate"
          if 2 ≤ correct_count then
            if current_diff == "beginner" then "intermediate"
            else if current_diff == "intermediate" then "advanced"
            else "advanced"
          else if correct_count ≤ 1 then
            if current_diff == "advanced" then "intermediate"
            else if current_diff == "intermediate" then "beginner"
            else "beginner"
          else current_diff

/-! ## recommendation_engine.py -/

/-- The slice of a `skills_ontology.Skill` that the recommendation engine
reads (`skill.name`, `skill.category.value`). -/
structure OntSkill where
  name : String
  category : String
deriving Repr, DecidableEq

/-- `SkillsOntology.get_skill`, modelled as an association-list lookup. -/
abbrev Ontology := List (String × OntSkill)

/-- Percentage formatting `f"{x*100:.0f}%"` on an exact value. -/
def fmtPct (x : ℚ) : String :=
  toString (roundHalfEven (x * 100)) ++ "%"

/-- One entry of the list returned by `get_weak_skills`. -/
structure WeakSkill where
  skill_id : String
  skill_name : String
  category : String
  accuracy : ℚ
  attempts : Nat
  improvement_needed : ℚ
deriving Repr, DecidableEq

/-- Comparison key of `weak_skills.sort(key=lambda x: x['accuracy'])`. -/
def weakSkillLE (a b : WeakSkill) : Prop := a.accuracy ≤ b.accuracy

instance : DecidableRel weakSkillLE := fun a b => inferInstanceAs (Decidable (a.accuracy ≤ b.accuracy))

instance : IsTotal WeakSkill weakSkillLE := ⟨fun a b => le_total a.accuracy b.accuracy⟩

instance : IsTrans WeakSkill weakSkillLE := ⟨fun _ _ _ h1 h2 => le_trans h1 h2⟩

/-- One entry of the list returned by `get_weak_topics`. -/
structure WeakTopic where
  topic : String
  accuracy : ℚ
  attempts : Nat
  correct : Nat
  improvement_needed : ℚ
  priority : String
deriving Repr, DecidableEq

/-- Comparison key of `weak_topics.sort(key=lambda x: x['accuracy'])`. -/
def weakTopicLE (a b : WeakTopic) : Prop := a.accuracy ≤ b.accuracy

instance : DecidableRel weakTopicLE := fun a b => inferInstanceAs (Decidable (a.accuracy ≤ b.accuracy))

instance : IsTotal WeakTopic weakTopicLE := ⟨fun a b => le_total a.accuracy b.accuracy⟩

instance : IsTrans WeakTopic weakTopicLE := ⟨fun _ _ _ h1 h2 => le_trans h1 h2⟩

/-- `RecommendationEngine.get_weak_skills` (threshold defaults to 0.7):
skill gaps below the threshold, enriched from the ontology, ascending by
accuracy, top 5. -/
def get_weak_skills (profiles : ProfileStore) (ontology : Ontology)
    (learner_id : String) (threshold : ℚ) : List WeakSkill :=
  let gaps := get_skill_gaps profiles learner_id
  let ws := (gaps.filter (fun g => decide (g.accuracy < threshold))).map
    (fun g =>
      let base : WeakSkill :=
        { skill_id := g.skill_id
          skill_name := pyTitle ((g.skill_id.replace "skill_" "").replace "_" " ")
          category := "General"
          accuracy := g.accuracy
          attempts := g.attempts
          improvement_needed := threshold - g.accuracy }
      match dictGet ontology g.skill_id with
      | some sk => { base with skill_name := sk.name, category := sk.category }
      | none => base)
  (ws.insertionSort weakSkillLE).take 5

/-- `RecommendationEngine.get_weak_topics` (threshold defaults to 0.7):
topic weaknesses below the threshold, ascending by accuracy, top 5, each
with a `"high"`/`"medium"` priority at the 0.5 boundary. -/
def get_weak_topics (profiles : ProfileStore) (learner_id : String)
    (threshold : ℚ) : List WeakTopic :=
  let ws := (get_topic_weaknesses profiles learner_id).filter
    (fun t => decide (t.accuracy < threshold))
  let wt := ws.map (fun t =>
    { topic := t.topic
      accuracy := t.accuracy
      attempts := t.attempts
      correct := t.correct
      improvement_needed := threshold - t.accuracy
      priority := if t.accuracy < 1/2 then "high" else "medium" })
  (wt.insertionSort weakTopicLE).take 5

/-- The value stored under a topic in `topic_distribution`. -/
structure TopicDist where
  num_questions : Nat
  current_accuracy : String
deriving Repr, DecidableEq

/-- The value stored under a skill id in `skill_distribution`. -/
structure SkillDist where
  skill_name : String
  num_questions : Nat
  current_accuracy : String
deriving Repr, DecidableEq

/-- The dict returned by `RecommendationEngine.generate_focused_exam`. -/
structure FocusedExam where
  focus : String
  message : String
  skill_distribution : List (String × SkillDist)
  topic_distribution : List (String × TopicDist)
  recommended_topics : List String
deriving Repr, DecidableEq

/-- `RecommendationEngine.generate_focused_exam`: a comprehensive-review
plan when no weak areas exist; otherwise `max(2, num_questions //
total_weak)` questions for each of the top 3 weak topics and top 2 weak
skills, where `total_weak` is the full (uncapped) weak-area count. -/
def generate_focused_exam (profiles : ProfileStore) (ontology : Ontology)
    (learner_id : String) (num_questions : Nat) : FocusedExam :=
  let weak_skills := get_weak_skills profiles ontology learner_id (7/10)
  let weak_topics := get_weak_topics profiles learner_id (7/10)
  if weak_skills.isEmpty && weak_topics.isEmpty then
    { focus := "comprehensive_review"
      message := "Great job! No major gaps identified. This will be a comprehensive review."
      skill_distribution := []
      topic_distribution := []
      recommended_topics := [] }
  else
    let total_weak := weak_topics.length + weak_skills.length
    let questions_per_area := max 2 (num_questions / max total_weak 1)
    let topic_distribution := (weak_topics.take 3).foldl
      (fun d t => dictSet d t.topic
        { num_questions := questions_per_area
          current_accuracy := fmtPct t.accuracy })
      []
    let skill_distribution := (weak_skills.take 2).foldl
      (fun d s => dictSet d s.skill_id
        { skill_name := s.skill_name
          num_questions := questions_per_area
          current_accuracy := fmtPct s.accuracy })
      []
    let focus_areas := (weak_topics.take 3).map (fun t => t.topic) ++
      (weak_skills.take 2).map (fun s => s.skill_name)
    { focus := "gap_remediation"
      message := "This exam focuses on your " ++ toString focus_areas.length ++
        " weakest areas: " ++ String.intercalate ", " focus_areas
      skill_distribution := skill_distribution
      topic_distribution := topic_distribution
      recommended_topics := focus_areas }

/-- The counters of `get_all_performance_data` consumed by
`get_next_milestone`: total questions, topics practiced, exams completed
and the rounded overall accuracy percentage. -/
structure PerfStats where
  total_questions : Nat
  topics_practiced : Nat
  exams_completed : Nat
  overall_accuracy : ℚ
deriving Repr, DecidableEq

/-- The counter block of `LearnerProfileManager.get_all_performance_data`:
`overall_accuracy = round(correct/total*100, 1)` (0 when no attempts). -/
def performance_stats (p : LearnerProfile) : PerfStats :=
  let total := p.attempts.length
  let correct := (p.attempts.filter (fun a => a.correct)).length
  { total_questions := total
    topics_practiced := p.topic_performance.length
    exams_completed := p.exam_history.length
    overall_accuracy :=
      if 0 < total then roundTo1 ((correct : ℚ) / (total : ℚ) * 100) else 0 }

/-- One element of the `milestones` list in `get_next_milestone`. -/
structure Milestone where
  name : String
  check : PerfStats → Bool
  progress : PerfStats → String
  description : String

/-- The fixed milestone ladder of `get_next_milestone`, in source order. -/
def milestones : List Milestone :=
  [ { name := "Beginner"
      check := fun st => 5 ≤ st.total_questions
      progress := fun st => toString (min st.total_questions 5) ++ "/5 questions"
      description := "Answer 5 questions" }
  , { name := "Explorer"
      check := fun st => 3 ≤ st.topics_practiced
      progress := fun st => toString (min st.topics_practiced 3) ++ "/3 topics"
      description := "Practice 3 different topics" }
  , { name := "Committed"
      check := fun st => 3 ≤ st.exams_completed
      progress := fun st => toString (min st.exams_completed 3) ++ "/3 exams"
      description := "Complete 3 exams" }
  , { name := "Proficient"
      check := fun st => decide (25 ≤ st.total_questions) && decide ((70 : ℚ) ≤ st.overall_accuracy)
      progress := fun st => toString st.total_questions ++ "/25 questions, " ++
        toString (roundHalfEven st.overall_accuracy) ++ "%/70% accuracy"
      description := "Answer 25 questions with 70%+ accuracy" }
  , { name := "Expert"
      check := fun st => decide (50 ≤ st.total_questions) && decide ((85 : ℚ) ≤ st.overall_accuracy)
      progress := fun st => toString st.total_questions ++ "/50 questions, " ++
        toString (roundHalfEven st.overall_accuracy) ++ "%/85% accuracy"
      description := "Answer 50 questions with 85%+ accuracy" }
  , { name := "Master"
      check := fun st => decide (100 ≤ st.total_questions) && decide ((90 : ℚ) ≤ st.overall_accuracy)
      progress := fun st => toString st.total_questions ++ "/100 questions, " ++
        toString (roundHalfEven st.overall_accuracy) ++ "%/90% accuracy"
      description := "Answer 100 questions with 90%+ accuracy" }
  ]

/-- The `for i, milestone in enumerate(milestones)` loop: a passing check
records the milestone as current and moves on, the first failing check is
the next milestone and the walk stops; `none` means every check passed. -/
def walkAux (st : PerfStats) (current : String) :
    List Milestone → String × Option Milestone
  | [] => (current, none)
  | m :: rest => if m.check st then walkAux st m.name rest else (current, some m)

/-- The dict returned by `RecommendationEngine.get_next_milestone`. -/
structure MilestoneResult where
  current : String
  next : String
  progress : String
  description : String
deriving Repr, DecidableEq

/-- `RecommendationEngine.get_next_milestone`. -/
def get_next_milestone (profiles : ProfileStore) (learner_id : String) :
    MilestoneResult :=
  match dictGet profiles learner_id with
  | none =>
      { current := "Novice", next := "Beginner", progress := "0/3"
        description := "Practice 3 different topics" }
  | some p =>
      let st := performance_stats p
      match walkAux st "Novice" milestones with
      | (cur, some m) =>
          { current := cur, next := m.name, progress := m.progress st
            description := m.description }
      | (cur, none) =>
          { current := cur, next := "Master", progress := "Complete"
            description := "You\x27ve mastered all milestones!" }

/-! ## Specification-side definitions

These formalise the wording of the specification / claims, to be compared
with the embedded source functions above. -/

/-- One tier above, saturating at `"advanced"`
(beginner → intermediate → advanced), as worded in the spec. -/
def tierUp (d : String) : String :=
  if d = "beginner" then "intermediate"
  else if d = "intermediate" then "advanced"
  else "advanced"

/-- One tier below, saturating at `"beginner"`, as worded in the spec. -/
def tierDown (d : String) : String :=
  if d = "advanced" then "intermediate"
  else if d = "intermediate" then "beginner"
  else "beginner"

/-- The proficiency-tier table exactly as worded in the spec: fewer than 2
attempts → novice; 2–3 attempts → beginner if accuracy ≥ 0.5 else novice;
4–7 attempts → advanced if ≥ 0.8, intermediate if ≥ 0.6, else beginner;
8 or more → expert if ≥ 0.85, advanced if ≥ 0.75, intermediate if ≥ 0.6,
else beginner. -/
def proficiencySpec (accuracy : ℚ) (attempts : Nat) : String :=
  if attempts < 2 then "novice"
  else if attempts ≤ 3 then
    if accuracy ≥ 1/2 then "beginner" else "novice"
  else if attempts ≤ 7 then
    if accuracy ≥ 4/5 then "advanced"
    else if accuracy ≥ 3/5 then "intermediate"
    else "beginner"
  else
    if accuracy ≥ 17/20 then "expert"
    else if accuracy ≥ 3/4 then "advanced"
    else if accuracy ≥ 3/5 then "intermediate"
    else "beginner"

/-- The milestone ladder names in spec order. -/
def milestoneNames : List String :=
  ["Beginner", "Explorer", "Committed", "Proficient", "Expert", "Master"]

/-- The spec's gating predicate of the i-th milestone: 5 questions /
3 topics / 3 exams / 25 questions at 70% / 50 at 85% / 100 at 90%. -/
def milestoneMet (st : PerfStats) : Nat → Bool
  | 0 => decide (5 ≤ st.total_questions)
  | 1 => decide (3 ≤ st.topics_practiced)
  | 2 => decide (3 ≤ st.exams_completed)
  | 3 => decide (25 ≤ st.total_questions) && decide ((70 : ℚ) ≤ st.overall_accuracy)
  | 4 => decide (50 ≤ st.total_questions) && decide ((85 : ℚ) ≤ st.overall_accuracy)
  | _ => decide (100 ≤ st.total_questions) && decide ((90 : ℚ) ≤ st.overall_accuracy)

/-- Length of the met prefix of the spec ladder (indices 0–5). -/
def metPrefixLen (st : PerfStats) : Nat :=
  ([0, 1, 2, 3, 4, 5].takeWhile (fun i => milestoneMet st i)).length

/-- The cumulative (total, correct) counters stored for a skill: `(0, 0)`
when the skill is untracked. -/
def skillTotals (d : List (String × SkillPerformance)) (s : String) :
    Nat × Nat :=
  match dictGet d s with
  | none => (0, 0)
  | some perf => (perf.total_attempts, perf.correct_attempts)

/-- A sequence of `record_attempt` calls against one profile. -/
def recordAttempts (p : LearnerProfile) (l : List QuestionAttempt)
    (now : Nat) : LearnerProfile :=
  l.foldl (fun p a => record_attempt_profile p a now) p

/-! ## Concrete fixtures for witnesses and counterexamples -/

/-- A small answered/unanswered exam question for test sessions. -/
def mkQ (qid topic diff : String) (ic : Option Bool) : ExamQuestion :=
  { question_id := qid
    topic := topic
    difficulty := diff
    question_type := "mcq"
    skill_ids := ["skill_a"]
    correct_answer := "A"
    user_answer := ic.map (fun b => if b then "A" else "B")
    is_correct := ic
    timestamp := if ic.isSome then some 1 else none }

/-- An empty in-progress session skeleton. -/
def mkSession (qs : List ExamQuestion) : ExamSession :=
  { session_id := "s1"
    learner_id := "l1"
    mode := "adaptive"
    total_questions := 10
    questions := qs
    start_time := 0 }

/-- A fresh profile fixture. -/
def mkProfile : LearnerProfile :=
  { learner_id := "l1"
    name := "Lea"
    role := "nurse"
    created_at := 0
    updated_at := 0 }

/-- C2 counterexample: three questions added, exactly one answered
(incorrectly, at intermediate difficulty). -/
def cexC2Session : ExamSession :=
  mkSession
    [ mkQ "q1" "sepsis" "beginner" none
    , mkQ "q2" "sepsis" "beginner" none
    , mkQ "q3" "sepsis" "intermediate" (some false) ]

/-- C1 witness: three answered questions, 2 of 3 correct, most recent at
intermediate difficulty. -/
def w1Session : ExamSession :=
  mkSession
    [ mkQ "q1" "sepsis" "beginner" (some true)
    , mkQ "q2" "sepsis" "beginner" (some true)
    , mkQ "q3" "sepsis" "intermediate" (some false) ]

/-- C2 amended witness: a session with a single unanswered question. -/
def w2Session : ExamSession := mkSession [mkQ "q1" "sepsis" "beginner" none]

/-- A single attempt tagging `skill_a`. -/
def mkAttempt (qid : String) (correct : Bool) : QuestionAttempt :=
  { question_id := qid
    skill_ids := ["skill_a"]
    topic := "sepsis"
    difficulty := "beginner"
    question_type := "mcq"
    correct := correct
    timestamp := 1 }

/-- C7 counterexample: an attempt whose skill-tag set is empty. -/
def cexC7Attempt : QuestionAttempt :=
  { question_id := "q1"
    skill_ids := []
    topic := "Sepsis"
    difficulty := "beginner"
    question_type := "mcq"
    correct := true
    timestamp := 1 }

/-- C7 amended witness: a session holding one unanswered question with an
empty skill-tag set. -/
def w7Session : ExamSession :=
  mkSession
    [ { question_id := "q1"
        topic := "Sepsis Management"
        difficulty := "beginner"
        question_type := "mcq"
        skill_ids := []
        correct_answer := "A" } ]

/-- A tracked-skill aggregate fixture. -/
def mkPerf (sid : String) (total correct : Nat) : SkillPerformance :=
  { skill_id := sid
    total_attempts := total
    correct_attempts := correct
    accuracy := (correct : ℚ) / (total : ℚ)
    last_attempted := 1
    proficiency_level := calculate_proficiency ((correct : ℚ) / (total : ℚ)) total }

/-- C8 witness profile: one weak skill (1/2) and one strong skill (1/1). -/
def w8Profile : LearnerProfile :=
  { mkProfile with
      skill_performance :=
        [ ("skill_a", mkPerf "skill_a" 2 1)
        , ("skill_b", mkPerf "skill_b" 1 1) ] }

/-- A tracked-topic aggregate fixture. -/
def mkTopicPerf (topic : String) (total correct : Nat) : TopicPerformance :=
  { topic := topic
    total_attempts := total
    correct_attempts := correct
    accuracy := (correct : ℚ) / (total : ℚ)
    last_attempted := 1 }

/-- C9 counterexample profile: four weak topics, no tracked skills. -/
def c9Profile : LearnerProfile :=
  { mkProfile with
      topic_performance :=
        [ ("a", mkTopicPerf "a" 10 1)
        , ("b", mkTopicPerf "b" 10 2)
        , ("c", mkTopicPerf "c" 10 3)
        , ("d", mkTopicPerf "d" 10 4) ] }

/-- C6 witness profile: no attempts at all. -/
def w6Profile : LearnerProfile := mkProfile

/-! ## Dictionary lemmas -/

theorem dictGet_cons {α : Type} (k2 : String) (v2 : α)
    (rest : List (String × α)) (k : String) :
    dictGet ((k2, v2) :: rest) k = if k2 == k then some v2 else dictGet rest k := by
  by_cases h : (k2 == k) = true <;> simp [dictGet, List.find?_cons, h]

theorem dictGet_dictSet_self {α : Type} (d : List (String × α)) (k : String)
    (v : α) : dictGet (dictSet d k v) k = some v := by
  induction d with
  | nil => simp [dictSet, dictGet_cons]
  | cons hd tl ih =>
      obtain ⟨k2, v2⟩ := hd
      by_cases h : (k2 == k) = true
      · simp [dictSet, h, dictGet_cons]
      · simp [dictSet, h, dictGet_cons, ih]

theorem dictGet_dictSet_ne {α : Type} (d : List (String × α)) (k k2 : String)
    (v : α) (h : k2 ≠ k) : dictGet (dictSet d k v) k2 = dictGet d k2 := by
  induction d with
  | nil => simp [dictSet, dictGet_cons, dictGet]
           intro he
           exact absurd he.symm h
  | cons hd tl ih =>
      obtain ⟨k3, v3⟩ := hd
      by_cases h3 : (k3 == k) = true
      · have hk3 : k3 = k := by simpa using h3
        subst hk3
        rw [dictSet, if_pos h3, dictGet_cons, dictGet_cons]
        have : (k3 == k2) = false := by
          simpa using fun he => absurd he.symm h
        simp [this]
      · rw [dictSet, if_neg h3, dictGet_cons, dictGet_cons, ih]

theorem mem_dictSet {α : Type} (d : List (String × α)) (k : String) (v : α) :
    ∀ kv ∈ dictSet d k v, kv ∈ d ∨ kv = (k, v) := by
  induction d with
  | nil => simp [dictSet]
  | cons hd tl ih =>
      obtain ⟨k2, v2⟩ := hd
      intro kv hkv
      by_cases h : (k2 == k) = true
      · rw [dictSet, if_pos h] at hkv
        rcases List.mem_cons.1 hkv with h1 | h1
        · exact Or.inr h1
        · exact Or.inl (List.mem_cons_of_mem _ h1)
      · rw [dictSet, if_neg h] at hkv
        rcases List.mem_cons.1 hkv with h1 | h1
        · exact Or.inl (h1 ▸ List.mem_cons_self _ _)
        · rcases ih kv h1 with h2 | h2
          · exact Or.inl (List.mem_cons_of_mem _ h2)
          · exact Or.inr h2

theorem dictSet_length_le {α : Type} (d : List (String × α)) (k : String)
    (v : α) : (dictSet d k v).length ≤ d.length + 1 := by
  induction d with
  | nil => simp [dictSet]
  | cons hd tl ih =>
      obtain ⟨k2, v2⟩ := hd
      by_cases h : (k2 == k) = true
      · simp [dictSet, h]
      · simp only [dictSet, if_neg h, List.length_cons]
        omega

theorem dict_value_unique {α : Type} (d : List (String × α))
    (h : (d.map Prod.fst).Nodup) (k : String) (v1 v2 : α)
    (h1 : (k, v1) ∈ d) (h2 : (k, v2) ∈ d) : v1 = v2 := by
  induction d with
  | nil => cases h1
  | cons hd tl ih =>
      obtain ⟨k2, v0⟩ := hd
      simp only [List.map_cons, List.nodup_cons] at h
      rcases List.mem_cons.1 h1 with e1 | e1 <;>
        rcases List.mem_cons.1 h2 with e2 | e2
      · cases e1; cases e2; rfl
      · cases e1
        exact absurd (List.mem_map_of_mem Prod.fst e2) h.1
      · cases e2
        exact absurd (List.mem_map_of_mem Prod.fst e1) h.1
      · exact ih h.2 e1 e2

/-! ## List lemmas -/

theorem getLast?Drop {α : Type} (l : List α) (n : Nat) (h : n < l.length) :
    (l.drop n).getLast? = l.getLast? := by
  induction l generalizing n with
  | nil => simp at h
  | cons a tl ih =>
      cases n with
      | zero => simp
      | succ m =>
          simp only [List.length_cons, Nat.succ_lt_succ_iff] at h
          rw [List.drop_succ_cons, ih m h, List.getLast?_cons]
          have : tl ≠ [] := by
            intro he
            rw [he] at h
            simp at h
          cases tl with
          | nil => exact absurd rfl this
          | cons b tb => simp [List.getLast?_cons]

theorem lastN_length {α : Type} (n : Nat) (l : List α) (h : n ≤ l.length) :
    (lastN n l).length = n := by
  simp [lastN]
  omega

/-! ## record_attempt aggregate lemmas -/

theorem skillFold_not_mem (ids : List String)
    (d : List (String × SkillPerformance)) (c : Bool) (ts : Nat) (s : String)
    (h : s ∉ ids) : dictGet (skillFold d ids c ts) s = dictGet d s := by
  induction ids generalizing d with
  | nil => rfl
  | cons x rest ih =>
      have hx : s ≠ x := fun he => h (he ▸ List.mem_cons_self x rest)
      have hrest : s ∉ rest := fun hm => h (List.mem_cons_of_mem x hm)
      show dictGet (skillFold (dictSet d x _) rest c ts) s = dictGet d s
      rw [ih _ hrest, dictGet_dictSet_ne _ _ _ _ hx]

theorem skillFold_mem (ids : List String)
    (d : List (String × SkillPerformance)) (c : Bool) (ts : Nat) (s : String)
    (hmem : s ∈ ids) (hnd : ids.Nodup) :
    ∃ perf, dictGet (skillFold d ids c ts) s = some perf ∧
      perf.total_attempts = (skillTotals d s).1 + 1 ∧
      perf.correct_attempts = (skillTotals d s).2 + (if c then 1 else 0) ∧
      perf.accuracy = (perf.correct_attempts : ℚ) / (perf.total_attempts : ℚ) ∧
      perf.proficiency_level =
        calculate_proficiency perf.accuracy perf.total_attempts := by
  induction ids generalizing d with
  | nil => cases hmem
  | cons x rest ih =>
      rcases List.nodup_cons.1 hnd with ⟨hxrest, hndrest⟩
      rcases List.mem_cons.1 hmem with he | hm
      · subst he
        have hstep : dictGet (skillFold d (s :: rest) c ts) s =
            dictGet (dictSet d s (stepSkillPerf
              ((dictGet d s).getD (freshSkillPerf s ts)) c ts)) s :=
          skillFold_not_mem rest _ c ts s hxrest
        rw [hstep, dictGet_dictSet_self]
        refine ⟨_, rfl, ?_, ?_, ?_, ?_⟩ <;>
          cases hd : dictGet d s <;>
            simp [stepSkillPerf, skillTotals, freshSkillPerf, hd]
      · have hxs : s ≠ x := fun he => hxrest (he ▸ hm)
        have : skillFold d (x :: rest) c ts =
            skillFold (dictSet d x (stepSkillPerf
              ((dictGet d x).getD (freshSkillPerf x ts)) c ts)) rest c ts := rfl
        rw [this]
        have htot : skillTotals (dictSet d x (stepSkillPerf
            ((dictGet d x).getD (freshSkillPerf x ts)) c ts)) s = skillTotals d s := by
          simp [skillTotals, dictGet_dictSet_ne _ _ _ _ hxs]
        rcases ih _ hm hndrest with ⟨perf, h1, h2, h3, h4, h5⟩
        exact ⟨perf, h1, by rw [h2, htot], by rw [h3, htot], h4, h5⟩

theorem record_attempt_skillTotals (p : LearnerProfile) (a : QuestionAttempt)
    (now : Nat) (s : String) (hmem : s ∈ a.skill_ids)
    (hnd : a.skill_ids.Nodup) :
    ∃ perf, dictGet (record_attempt_profile p a now).skill_performance s = some perf ∧
      perf.total_attempts = (skillTotals p.skill_performance s).1 + 1 ∧
      perf.correct_attempts =
        (skillTotals p.skill_performance s).2 + (if a.correct then 1 else 0) ∧
      perf.accuracy = (perf.correct_attempts : ℚ) / (perf.total_attempts : ℚ) ∧
      perf.proficiency_level =
        calculate_proficiency perf.accuracy perf.total_attempts :=
  skillFold_mem a.skill_ids p.skill_performance a.correct a.timestamp s hmem hnd

theorem recordAttempts_totals (s : String) (l : List QuestionAttempt)
    (now : Nat) (h : ∀ a ∈ l, s ∈ a.skill_ids ∧ a.skill_ids.Nodup) :
    ∀ p : LearnerProfile,
      skillTotals (recordAttempts p l now).skill_performance s =
        ((skillTotals p.skill_performance s).1 + l.length,
         (skillTotals p.skill_performance s).2 +
           (l.filter (fun a => a.correct)).length) := by
  induction l with
  | nil => intro p; simp [recordAttempts]
  | cons a rest ih =>
      intro p
      have ha := h a (List.mem_cons_self a rest)
      have hrest : ∀ b ∈ rest, s ∈ b.skill_ids ∧ b.skill_ids.Nodup :=
        fun b hb => h b (List.mem_cons_of_mem a hb)
      have hstep : recordAttempts p (a :: rest) now =
          recordAttempts (record_attempt_profile p a now) rest now := rfl
      rw [hstep, ih hrest]
      rcases record_attempt_skillTotals p a now s ha.1 ha.2 with
        ⟨perf, h1, h2, h3, _, _⟩
      have : skillTotals (record_attempt_profile p a now).skill_performance s =
          (perf.total_attempts, perf.correct_attempts) := by
        simp [skillTotals, h1]
      rw [this, h2, h3]
      cases hc : a.correct <;>
        simp [List.filter_cons, hc, Prod.ext_iff] <;> omega

theorem skillFold_mem_step (ids : List String)
    (d : List (String × SkillPerformance)) (c : Bool) (ts : Nat) (s : String)
    (hmem : s ∈ ids) :
    ∃ q, dictGet (skillFold d ids c ts) s = some (stepSkillPerf q c ts) := by
  induction ids generalizing d with
  | nil => cases hmem
  | cons x rest ih =>
      by_cases hm : s ∈ rest
      · exact ih _ hm
      · rcases List.mem_cons.1 hmem with he | he
        · subst he
          refine ⟨(dictGet d s).getD (freshSkillPerf s ts), ?_⟩
          have hstep : dictGet (skillFold d (s :: rest) c ts) s =
              dictGet (dictSet d s (stepSkillPerf
                ((dictGet d s).getD (freshSkillPerf s ts)) c ts)) s :=
            skillFold_not_mem rest _ c ts s hm
          rw [hstep, dictGet_dictSet_self]
        · exact absurd he hm

theorem stepSkillPerf_proficiency (q : SkillPerformance) (c : Bool) (ts : Nat) :
    (stepSkillPerf q c ts).proficiency_level =
      calculate_proficiency (stepSkillPerf q c ts).accuracy
        (stepSkillPerf q c ts).total_attempts := rfl

/-- C3: the proficiency tier stored after every `record_attempt` update is
a pure function of the skill's cumulative (accuracy, total_attempts),
exactly per the spec's table (fewer than 2 attempts → novice; 2–3 →
beginner iff accuracy ≥ 0.5; 4–7 → advanced ≥ 0.8 / intermediate ≥ 0.6 /
beginner; ≥ 8 → expert ≥ 0.85 / advanced ≥ 0.75 / intermediate ≥ 0.6 /
beginner). -/
theorem c3_proficiency_table :
    (∀ (accuracy : ℚ) (attempts : Nat),
        calculate_proficiency accuracy attempts = proficiencySpec accuracy attempts) ∧
    (∀ (p : LearnerProfile) (a : QuestionAttempt) (now : Nat) (s : String)
        (perf : SkillPerformance), s ∈ a.skill_ids →
        dictGet (record_attempt_profile p a now).skill_performance s = some perf →
        perf.proficiency_level = proficiencySpec perf.accuracy perf.total_attempts) := by
  have htable : ∀ (accuracy : ℚ) (attempts : Nat),
      calculate_proficiency accuracy attempts = proficiencySpec accuracy attempts := by
    intro acc t
    unfold calculate_proficiency proficiencySpec
    split_ifs <;> first | rfl | omega
  refine ⟨htable, ?_⟩
  intro p a now s perf hmem hget
  rcases skillFold_mem_step a.skill_ids p.skill_performance a.correct
    a.timestamp s hmem with ⟨q, hq⟩
  have : dictGet (record_attempt_profile p a now).skill_performance s =
      some (stepSkillPerf q a.correct a.timestamp) := hq
  rw [this] at hget
  cases hget
  rw [stepSkillPerf_proficiency, htable]

/-- C3 witness: one correct attempt on a fresh skill. -/
theorem c3_proficiency_table_witness :
    calculate_proficiency 1 1 = proficiencySpec 1 1 ∧
    (stepSkillPerf (freshSkillPerf "skill_a" 1) true 1).proficiency_level =
      proficiencySpec (stepSkillPerf (freshSkillPerf "skill_a" 1) true 1).accuracy
        (stepSkillPerf (freshSkillPerf "skill_a" 1) true 1).total_attempts :=
  ⟨c3_proficiency_table.1 1 1,
   c3_proficiency_table.2 mkProfile (mkAttempt "q1" true) 2 "skill_a" _
     (by decide) (by rfl)⟩

/-- C4: starting from a profile that does not yet track skill `s`, after
`N` `record_attempt` calls all tagging `s` (with duplicate-free tag sets),
the stored `SkillPerformance` has `total_attempts = N`,
`correct_attempts` = number of correct attempts among them, and
`accuracy = correct_attempts / total_attempts` exactly, with
`0 ≤ accuracy ≤ 1`. -/
theorem c4_attempt_counters (p : LearnerProfile) (s : String)
    (l : List QuestionAttempt) (now : Nat)
    (hfresh : dictGet p.skill_performance s = none) (hne : l ≠ [])
    (htag : ∀ a ∈ l, s ∈ a.skill_ids ∧ a.skill_ids.Nodup) :
    ∃ perf, dictGet (recordAttempts p l now).skill_performance s = some perf ∧
      perf.total_attempts = l.length ∧
      perf.correct_attempts = (l.filter (fun a => a.correct)).length ∧
      perf.accuracy = (perf.correct_attempts : ℚ) / (perf.total_attempts : ℚ) ∧
      0 ≤ perf.accuracy ∧ perf.accuracy ≤ 1 := by
  rcases List.eq_nil_or_concat l with rfl | ⟨l2, a, rfl⟩
  · exact absurd rfl hne
  · simp only [List.concat_eq_append] at htag hne ⊢
    have hsplit : recordAttempts p (l2 ++ [a]) now =
        record_attempt_profile (recordAttempts p l2 now) a now := by
      simp [recordAttempts, List.foldl_append]
    have htag2 : ∀ b ∈ l2, s ∈ b.skill_ids ∧ b.skill_ids.Nodup :=
      fun b hb => htag b (by simp [hb])
    have ha : s ∈ a.skill_ids ∧ a.skill_ids.Nodup := htag a (by simp)
    have hzero : skillTotals p.skill_performance s = (0, 0) := by
      simp [skillTotals, hfresh]
    have hbase := recordAttempts_totals s l2 now htag2 p
    rw [hzero] at hbase
    simp only [Nat.zero_add] at hbase
    rcases record_attempt_skillTotals (recordAttempts p l2 now) a now s
      ha.1 ha.2 with ⟨perf, h1, h2, h3, h4, _⟩
    rw [hbase] at h2 h3
    have htotal : perf.total_attempts = (l2 ++ [a]).length := by
      rw [h2]; simp
    have hcorrect : perf.correct_attempts =
        ((l2 ++ [a]).filter (fun a => a.correct)).length := by
      rw [h3]
      cases hc : a.correct <;>
        simp [List.filter_append, List.filter_cons, hc]
    have hle : perf.correct_attempts ≤ perf.total_attempts := by
      rw [htotal, hcorrect]
      have := List.length_filter_le (fun a => a.correct) (l2 ++ [a])
      omega
    have hpos : (0 : ℚ) < (perf.total_attempts : ℚ) := by
      rw [htotal]
      have : 0 < (l2 ++ [a]).length := by simp
      exact_mod_cast this
    refine ⟨perf, by rw [hsplit]; exact h1, htotal, hcorrect, h4, ?_, ?_⟩
    · rw [h4]
      positivity
    · rw [h4]
      rw [div_le_one hpos]
      exact_mod_cast hle

/-- C4 witness: two attempts (one correct) on a fresh skill. -/
theorem c4_attempt_counters_witness :
    ∃ perf, dictGet (recordAttempts mkProfile
        [mkAttempt "q1" true, mkAttempt "q2" false] 3).skill_performance
        "skill_a" = some perf ∧
      perf.total_attempts = [mkAttempt "q1" true, mkAttempt "q2" false].length ∧
      perf.correct_attempts = ([mkAttempt "q1" true, mkAttempt "q2" false].filter
        (fun a => a.correct)).length ∧
      perf.accuracy = (perf.correct_attempts : ℚ) / (perf.total_attempts : ℚ) ∧
      0 ≤ perf.accuracy ∧ perf.accuracy ≤ 1 :=
  c4_attempt_counters mkProfile "skill_a"
    [mkAttempt "q1" true, mkAttempt "q2" false] 3 (by rfl) (by decide)
    (by decide)

/-- C5: for an existing session with `T` questions of which `C` have
`is_correct` set to true, `complete_session` returns
`score = 100*C/T` (0 when `T = 0`), and stores the session with status
`"completed"` and that score. -/
theorem c5_complete_session_score (sessions : SessionStore)
    (profiles : ProfileStore) (sid : String) (session : ExamSession)
    (now : Nat) (hs : dictGet sessions sid = some session) :
    ∃ out, complete_session sessions profiles sid now = Except.ok out ∧
      out.2.2.score = (if session.questions.length = 0 then 0 else
        100 * ((session.questions.filter
          (fun q => q.is_correct == some true)).length : ℚ) /
          (session.questions.length : ℚ)) ∧
      out.2.2.total = session.questions.length ∧
      out.2.2.correct = (session.questions.filter
        (fun q => q.is_correct == some true)).length ∧
      ∃ s2, dictGet out.1 sid = some s2 ∧ s2.status = "completed" ∧
        s2.score = some out.2.2.score := by
  unfold complete_session
  rw [hs]
  refine ⟨_, rfl, ?_, rfl, rfl, ?_⟩
  · rcases Nat.eq_zero_or_pos session.questions.length with h0 | h0
    · simp [h0]
    · rw [if_pos h0, if_neg (by omega)]
      ring
  · exact ⟨_, dictGet_dictSet_self _ _ _, rfl, rfl⟩

/-- C5 witness: a three-question session with two correct answers. -/
theorem c5_complete_session_score_witness :
    ∃ out, complete_session [("s1", w1Session)] [("l1", mkProfile)] "s1" 120 =
        Except.ok out ∧
      out.2.2.score = (if w1Session.questions.length = 0 then 0 else
        100 * ((w1Session.questions.filter
          (fun q => q.is_correct == some true)).length : ℚ) /
          (w1Session.questions.length : ℚ)) ∧
      out.2.2.total = w1Session.questions.length ∧
      out.2.2.correct = (w1Session.questions.filter
        (fun q => q.is_correct == some true)).length ∧
      ∃ s2, dictGet out.1 "s1" = some s2 ∧ s2.status = "completed" ∧
        s2.score = some out.2.2.score :=
  c5_complete_session_score [("s1", w1Session)] [("l1", mkProfile)] "s1"
    w1Session 120 (by rfl)

/-- C1: for a session whose question list contains at least 3 answered
questions, `get_adaptive_next_difficulty` looks at the most recently
answered 3: with at least 2 of 3 correct it returns one tier above the
most recent answered question's difficulty (saturating at advanced), with
at most 1 correct one tier below (saturating at beginner). Since the 3
examined questions give a correct count of 0–3, the two cases are
exhaustive. -/
theorem c1_adaptive_two_of_three (sessions : SessionStore) (sid : String)
    (session : ExamSession) (hs : dictGet sessions sid = some session)
    (q : ExamQuestion)
    (hlast : (session.questions.filter
      (fun q => q.is_correct.isSome)).getLast? = some q)
    (hn : 3 ≤ (session.questions.filter (fun q => q.is_correct.isSome)).length)
    (hd : q.difficulty = "beginner" ∨ q.difficulty = "intermediate" ∨
      q.difficulty = "advanced") :
    get_adaptive_next_difficulty sessions sid =
      if 2 ≤ ((lastN 3 (session.questions.filter
          (fun q => q.is_correct.isSome))).filter
          (fun q => q.is_correct == some true)).length
      then tierUp q.difficulty else tierDown q.difficulty := by
  unfold get_adaptive_next_difficulty
  rw [hs]
  dsimp only
  have hql : ¬ (session.questions.length < 3) := by
    have := List.length_filter_le (fun q => q.is_correct.isSome) session.questions
    omega
  rw [if_neg hql]
  have hlen : (lastN 3 (session.questions.filter
      (fun q => q.is_correct.isSome))).length = 3 :=
    lastN_length 3 _ hn
  have hne : ¬ ((lastN 3 (session.questions.filter
      (fun q => q.is_correct.isSome))).isEmpty = true) := by
    rw [List.isEmpty_iff]
    intro he
    rw [he] at hlen
    simp at hlen
  rw [if_neg hne]
  have hg : (lastN 3 (session.questions.filter
      (fun q => q.is_correct.isSome))).getLast? = some q := by
    rw [lastN, getLast?Drop _ _ (by omega), hlast]
  rw [hg]
  dsimp only
  by_cases hcc : 2 ≤ ((lastN 3 (session.questions.filter
      (fun q => q.is_correct.isSome))).filter
      (fun q => q.is_correct == some true)).length
  · rw [if_pos hcc, if_pos hcc]
    rcases hd with h | h | h <;> rw [h] <;> decide
  · rw [if_neg hcc, if_neg hcc, if_pos (by omega)]
    rcases hd with h | h | h <;> rw [h] <;> decide

/-- C1 witness: 2 of the last 3 answered correct, most recent at
intermediate difficulty. -/
theorem c1_adaptive_two_of_three_witness :
    get_adaptive_next_difficulty [("s1", w1Session)] "s1" =
      if 2 ≤ ((lastN 3 (w1Session.questions.filter
          (fun q => q.is_correct.isSome))).filter
          (fun q => q.is_correct == some true)).length
      then tierUp (mkQ "q3" "sepsis" "intermediate" (some false)).difficulty
      else tierDown (mkQ "q3" "sepsis" "intermediate" (some false)).difficulty :=
  c1_adaptive_two_of_three [("s1", w1Session)] "s1" w1Session (by rfl)
    (mkQ "q3" "sepsis" "intermediate" (some false)) (by decide) (by decide)
    (Or.inr (Or.inl (by decide)))

/-- C2 counterexample: a session with 3 questions added but only 1
answered (incorrectly, at intermediate difficulty) has fewer than 3
answered questions, yet `get_adaptive_next_difficulty` returns
`"beginner"`, not `"intermediate"`: the `< 3` gate counts questions
added, not questions answered. -/
theorem c2_adaptive_counterexample :
    ((cexC2Session.questions.filter (fun q => q.is_correct.isSome)).length < 3) ∧
    get_adaptive_next_difficulty [("s1", cexC2Session)] "s1" ≠ "intermediate" := by
  decide

/-- C2 amended: `get_adaptive_next_difficulty` returns `"intermediate"`
when the session holds fewer than 3 questions (answered or not), or when
no question has been answered; with 3 or more questions added and 1–2
answered, the 2-out-of-3 rule runs on the answered suffix instead. -/
theorem c2_adaptive_default_amended (sessions : SessionStore) (sid : String)
    (session : ExamSession) (hs : dictGet sessions sid = some session)
    (h : session.questions.length < 3 ∨
      session.questions.filter (fun q => q.is_correct.isSome) = []) :
    get_adaptive_next_difficulty sessions sid = "intermediate" := by
  unfold get_adaptive_next_difficulty
  rw [hs]
  dsimp only
  rcases h with h | h
  · rw [if_pos h]
  · by_cases hlen : session.questions.length < 3
    · rw [if_pos hlen]
    · rw [if_neg hlen, h]
      simp [lastN]

/-- C2 amended witness: a one-question session. -/
theorem c2_adaptive_default_amended_witness :
    get_adaptive_next_difficulty [("s1", w2Session)] "s1" = "intermediate" :=
  c2_adaptive_default_amended [("s1", w2Session)] "s1" w2Session (by rfl)
    (Or.inl (by decide))

/-- C7 counterexample: `record_attempt` itself applies no fallback — an
attempt whose skill-tag set is empty is appended to the history but
updates no skill aggregate, and no synthetic `topic_<slug>` skill is
created. -/
theorem c7_record_attempt_counterexample :
    record_attempt_store [("l1", mkProfile)] "l1" cexC7Attempt 2 =
      Except.ok [("l1", record_attempt_profile mkProfile cexC7Attempt 2)] ∧
    cexC7Attempt.skill_ids = [] ∧
    (record_attempt_profile mkProfile cexC7Attempt 2).skill_performance = [] ∧
    dictGet (record_attempt_profile mkProfile cexC7Attempt 2).skill_performance
      (topicSlug cexC7Attempt.topic) = none := by
  refine ⟨rfl, ?_, ?_, ?_⟩ <;> decide

/-- C7 amended: the `topic_<slug>` fallback lives in `submit_answer` (and
`add_question_to_session`), not in `record_attempt`: when a question with
an empty skill-tag set is submitted, the forwarded attempt carries the
synthetic topic-derived skill id and the profile's aggregate for that id
is created/updated, so the attempt is not silently dropped. -/
theorem c7_submit_fallback_amended (sessions : SessionStore)
    (profiles : ProfileStore) (sid : String) (session : ExamSession)
    (hs : dictGet sessions sid = some session) (j : Nat) (q : ExamQuestion)
    (hq : session.questions[j]? = some q) (hempty : q.skill_ids = [])
    (p : LearnerProfile) (hp : dictGet profiles session.learner_id = some p)
    (ans : String) (tss : Int) (now : Nat) :
    ∃ out, submit_answer sessions profiles sid (j : Int) ans tss now =
        Except.ok out ∧
      ∃ p2, dictGet out.2.1 session.learner_id = some p2 ∧
        ∃ perf, dictGet p2.skill_performance (topicSlug q.topic) = some perf ∧
          perf.total_attempts =
            (skillTotals p.skill_performance (topicSlug q.topic)).1 + 1 ∧
          perf.correct_attempts =
            (skillTotals p.skill_performance (topicSlug q.topic)).2 +
              (if (ans == q.correct_answer) then 1 else 0) := by
  have hj : j < session.questions.length := by
    rcases List.getElem?_eq_some.mp hq with ⟨h, _⟩
    exact h
  have hpy : pyIdx session.questions.length (j : Int) = some j := by
    unfold pyIdx
    rw [if_pos (Int.natCast_nonneg j), if_pos (by exact_mod_cast hj)]
    simp
  unfold submit_answer
  rw [hs]
  dsimp only
  rw [if_neg (by exact_mod_cast Nat.not_le.mpr hj), hpy]
  dsimp only
  rw [hq]
  dsimp only
  have hids : (attemptOfQuestion (answeredQuestion q ans tss now) sid tss
      now).skill_ids = [topicSlug q.topic] := by
    simp [attemptOfQuestion, answeredQuestion, hempty]
  unfold record_attempt_store
  rw [hp]
  dsimp only
  refine ⟨_, rfl, _, dictGet_dictSet_self _ _ _, ?_⟩
  rcases skillFold_mem [topicSlug q.topic] p.skill_performance
      ((answeredQuestion q ans tss now).is_correct.getD false) now
      (topicSlug q.topic) (List.mem_singleton.mpr rfl)
      (List.nodup_singleton _) with ⟨perf, h1, h2, h3, _, _⟩
  have hproj : (record_attempt_profile p
      (attemptOfQuestion (answeredQuestion q ans tss now) sid tss now)
      now).skill_performance =
      skillFold p.skill_performance
        (attemptOfQuestion (answeredQuestion q ans tss now) sid tss now).skill_ids
        (attemptOfQuestion (answeredQuestion q ans tss now) sid tss now).correct
        (attemptOfQuestion (answeredQuestion q ans tss now) sid tss now).timestamp :=
    rfl
  refine ⟨perf, ?_, h2, ?_⟩
  · rw [hproj, hids]
    exact h1
  · exact h3

/-- C7 amended witness: submitting the single empty-tagged question of
`w7Session` records the attempt under `topic_sepsis_management`. -/
theorem c7_submit_fallback_amended_witness :
    ∃ out, submit_answer [("s1", w7Session)] [("l1", mkProfile)] "s1"
        ((0 : Nat) : Int) "A" 30 5 = Except.ok out ∧
      ∃ p2, dictGet out.2.1 w7Session.learner_id = some p2 ∧
        ∃ perf, dictGet p2.skill_performance
            (topicSlug "Sepsis Management") = some perf ∧
          perf.total_attempts = (skillTotals mkProfile.skill_performance
            (topicSlug "Sepsis Management")).1 + 1 ∧
          perf.correct_attempts = (skillTotals mkProfile.skill_performance
            (topicSlug "Sepsis Management")).2 +
              (if (("A" : String) == "A") then 1 else 0) :=
  c7_submit_fallback_amended [("s1", w7Session)] [("l1", mkProfile)] "s1"
    w7Session (by rfl) 0
    { question_id := "q1"
      topic := "Sepsis Management"
      difficulty := "beginner"
      question_type := "mcq"
      skill_ids := []
      correct_answer := "A" }
    (by rfl) (by rfl) mkProfile (by rfl) "A" 30 5

theorem pyIdx_lt (n : Nat) (i : Int) (j : Nat) (h : pyIdx n i = some j) :
    j < n := by
  unfold pyIdx at h
  by_cases h1 : 0 ≤ i
  · rw [if_pos h1] at h
    by_cases h2 : i < (n : Int)
    · rw [if_pos h2] at h
      injection h with h4
      omega
    · rw [if_neg h2] at h
      cases h
  · rw [if_neg h1] at h
    by_cases h3 : 0 ≤ (n : Int) + i
    · rw [if_pos h3] at h
      injection h with h4
      omega
    · rw [if_neg h3] at h
      cases h

/-- C10: for an existing session, `submit_answer` raises its out-of-range
`ValueError` exactly for indices at or past the question count, while an
in-range negative index is accepted without error and answers the question
counted from the end of the list (Python negative indexing). -/
theorem c10_negative_index (sessions : SessionStore) (profiles : ProfileStore)
    (sid : String) (session : ExamSession)
    (hs : dictGet sessions sid = some session) (qi : Int) (ans : String)
    (tss : Int) (now : Nat) :
    (submit_answer sessions profiles sid qi ans tss now =
        Except.error PyError.outOfRange ↔
      (session.questions.length : Int) ≤ qi) ∧
    (qi < 0 → -(session.questions.length : Int) ≤ qi →
      ∃ q out, session.questions[((session.questions.length : Int) + qi).toNat]? =
          some q ∧
        submit_answer sessions profiles sid qi ans tss now = Except.ok out ∧
        dictGet out.1 sid = some { session with
          questions := session.questions.set
            (((session.questions.length : Int) + qi).toNat)
            (answeredQuestion q ans tss now) }) := by
  constructor
  · constructor
    · intro h
      by_contra hlt
      push_neg at hlt
      unfold submit_answer at h
      rw [hs] at h
      dsimp only at h
      rw [if_neg (not_le.mpr hlt)] at h
      cases hpy : pyIdx session.questions.length qi with
      | none => rw [hpy] at h; dsimp only at h; cases h
      | some j =>
          rw [hpy] at h
          dsimp only at h
          have hj := pyIdx_lt _ _ _ hpy
          cases hq : session.questions[j]? with
          | none =>
              rw [List.getElem?_eq_none_iff] at hq
              omega
          | some q => rw [hq] at h; dsimp only at h; cases h
    · intro hle
      unfold submit_answer
      rw [hs]
      dsimp only
      rw [if_pos hle]
  · intro hneg hge
    have hlen1 : 1 ≤ session.questions.length := by omega
    have hj : (((session.questions.length : Int) + qi).toNat) <
        session.questions.length := by omega
    have hpy : pyIdx session.questions.length qi =
        some (((session.questions.length : Int) + qi).toNat) := by
      unfold pyIdx
      rw [if_neg (not_le.mpr hneg), if_pos (by omega)]
    have hqe := List.getElem?_eq_getElem hj
    unfold submit_answer
    rw [hs]
    dsimp only
    rw [if_neg (by omega), hpy]
    dsimp only
    rw [hqe]
    dsimp only
    exact ⟨_, _, rfl, rfl, dictGet_dictSet_self _ _ _⟩

/-- C10 witness: index −1 on a three-question session is accepted and
answers the last question. -/
theorem c10_negative_index_witness :
    (submit_answer [("s1", w1Session)] [("l1", mkProfile)] "s1" (-1) "A" 30 5 =
        Except.error PyError.outOfRange ↔
      (w1Session.questions.length : Int) ≤ -1) ∧
    ((-1 : Int) < 0 → -(w1Session.questions.length : Int) ≤ -1 →
      ∃ q out, w1Session.questions[((w1Session.questions.length : Int) +
          -1).toNat]? = some q ∧
        submit_answer [("s1", w1Session)] [("l1", mkProfile)] "s1" (-1) "A" 30 5 =
          Except.ok out ∧
        dictGet out.1 "s1" = some { w1Session with
          questions := w1Session.questions.set
            (((w1Session.questions.length : Int) + -1).toNat)
            (answeredQuestion q "A" 30 5) }) :=
  c10_negative_index [("s1", w1Session)] [("l1", mkProfile)] "s1" w1Session
    (by rfl) (-1) "A" 30 5

/-- C8: every skill returned by `get_skill_gaps` has accuracy below 0.7,
every skill returned by `get_strengths` has accuracy at least 0.7, the two
result sets are disjoint, their union is exactly the set of tracked skills
with at least one attempt, and gaps are sorted ascending / strengths
descending by accuracy. -/
theorem c8_gaps_strengths (profiles : ProfileStore) (lid : String) (p : LearnerProfile)
    (hp : dictGet profiles lid = some p)
    (hkeys : (p.skill_performance.map Prod.fst).Nodup) :
    (∀ e ∈ get_skill_gaps profiles lid, e.accuracy < 7/10) ∧
    (∀ e ∈ get_strengths profiles lid, 7/10 ≤ e.accuracy) ∧
    (∀ s : String, ¬ (s ∈ (get_skill_gaps profiles lid).map GapEntry.skill_id ∧
      s ∈ (get_strengths profiles lid).map GapEntry.skill_id)) ∧
    (∀ s : String, (s ∈ (get_skill_gaps profiles lid).map GapEntry.skill_id ∨
        s ∈ (get_strengths profiles lid).map GapEntry.skill_id) ↔
      ∃ perf, (s, perf) ∈ p.skill_performance ∧ 1 ≤ perf.total_attempts) ∧
    (get_skill_gaps profiles lid).Sorted gapLE ∧
    (get_strengths profiles lid).Sorted gapGE := by
  have hmemG : ∀ e : GapEntry, e ∈ get_skill_gaps profiles lid ↔
      ∃ kv : String × SkillPerformance, kv ∈ p.skill_performance ∧
        (kv.2.accuracy < 7/10 ∧ 1 ≤ kv.2.total_attempts) ∧
        e = { skill_id := kv.1, accuracy := kv.2.accuracy,
              attempts := kv.2.total_attempts,
              proficiency := kv.2.proficiency_level } := by
    intro e
    unfold get_skill_gaps
    rw [hp]
    dsimp only
    rw [List.mem_insertionSort, List.mem_map]
    constructor
    · rintro ⟨kv, hkv, rfl⟩
      rw [List.mem_filter] at hkv
      exact ⟨kv, hkv.1, by simpa using hkv.2, rfl⟩
    · rintro ⟨kv, hkv, hcond, rfl⟩
      exact ⟨kv, List.mem_filter.mpr ⟨hkv, by simpa using hcond⟩, rfl⟩
  have hmemS : ∀ e : GapEntry, e ∈ get_strengths profiles lid ↔
      ∃ kv : String × SkillPerformance, kv ∈ p.skill_performance ∧
        (7/10 ≤ kv.2.accuracy ∧ 1 ≤ kv.2.total_attempts) ∧
        e = { skill_id := kv.1, accuracy := kv.2.accuracy,
              attempts := kv.2.total_attempts,
              proficiency := kv.2.proficiency_level } := by
    intro e
    unfold get_strengths
    rw [hp]
    dsimp only
    rw [List.mem_insertionSort, List.mem_map]
    constructor
    · rintro ⟨kv, hkv, rfl⟩
      rw [List.mem_filter] at hkv
      exact ⟨kv, hkv.1, by simpa using hkv.2, rfl⟩
    · rintro ⟨kv, hkv, hcond, rfl⟩
      exact ⟨kv, List.mem_filter.mpr ⟨hkv, by simpa using hcond⟩, rfl⟩
  refine ⟨?_, ?_, ?_, ?_, ?_, ?_⟩
  · intro e he
    rcases (hmemG e).mp he with ⟨kv, _, ⟨hacc, _⟩, rfl⟩
    exact hacc
  · intro e he
    rcases (hmemS e).mp he with ⟨kv, _, ⟨hacc, _⟩, rfl⟩
    exact hacc
  · rintro s ⟨h1, h2⟩
    rw [List.mem_map] at h1 h2
    rcases h1 with ⟨e1, he1, hs1⟩
    rcases h2 with ⟨e2, he2, hs2⟩
    rcases (hmemG e1).mp he1 with ⟨kv1, hin1, ⟨hacc1, _⟩, rfl⟩
    rcases (hmemS e2).mp he2 with ⟨kv2, hin2, ⟨hacc2, _⟩, rfl⟩
    dsimp only [GapEntry.skill_id] at hs1 hs2
    have hm1 : (s, kv1.2) ∈ p.skill_performance := by
      rw [← hs1]
      exact hin1
    have hm2 : (s, kv2.2) ∈ p.skill_performance := by
      rw [← hs2]
      exact hin2
    have heq := dict_value_unique p.skill_performance hkeys s kv1.2 kv2.2 hm1 hm2
    rw [heq] at hacc1
    exact absurd hacc2 (not_le.mpr hacc1)
  · intro s
    constructor
    · rintro (h1 | h1) <;> rw [List.mem_map] at h1 <;>
        rcases h1 with ⟨e, he, hs1⟩
      · rcases (hmemG e).mp he with ⟨kv, hin, ⟨hacc, hatt⟩, rfl⟩
        dsimp only [GapEntry.skill_id] at hs1
        refine ⟨kv.2, ?_, hatt⟩
        rw [← hs1]
        exact hin
      · rcases (hmemS e).mp he with ⟨kv, hin, ⟨hacc, hatt⟩, rfl⟩
        dsimp only [GapEntry.skill_id] at hs1
        refine ⟨kv.2, ?_, hatt⟩
        rw [← hs1]
        exact hin
    · rintro ⟨perf, hin, hatt⟩
      by_cases hacc : perf.accuracy < 7/10
      · left
        rw [List.mem_map]
        refine ⟨⟨s, perf.accuracy, perf.total_attempts,
          perf.proficiency_level⟩, ?_, rfl⟩
        exact (hmemG _).mpr ⟨(s, perf), hin, ⟨hacc, hatt⟩, rfl⟩
      · right
        rw [List.mem_map]
        refine ⟨⟨s, perf.accuracy, perf.total_attempts,
          perf.proficiency_level⟩, ?_, rfl⟩
        exact (hmemS _).mpr ⟨(s, perf), hin, ⟨not_lt.mp hacc, hatt⟩, rfl⟩
  · unfold get_skill_gaps
    rw [hp]
    dsimp only
    exact List.sorted_insertionSort gapLE _
  · unfold get_strengths
    rw [hp]
    dsimp only
    exact List.sorted_insertionSort gapGE _

/-- C8 witness: a profile tracking one weak and one strong skill. -/
theorem c8_gaps_strengths_witness :
    (∀ e ∈ get_skill_gaps [("l1", w8Profile)] "l1", e.accuracy < 7/10) ∧
    (∀ e ∈ get_strengths [("l1", w8Profile)] "l1", 7/10 ≤ e.accuracy) ∧
    (∀ s : String, ¬ (s ∈ (get_skill_gaps [("l1", w8Profile)] "l1").map
        GapEntry.skill_id ∧
      s ∈ (get_strengths [("l1", w8Profile)] "l1").map GapEntry.skill_id)) ∧
    (∀ s : String, (s ∈ (get_skill_gaps [("l1", w8Profile)] "l1").map
        GapEntry.skill_id ∨
        s ∈ (get_strengths [("l1", w8Profile)] "l1").map GapEntry.skill_id) ↔
      ∃ perf, (s, perf) ∈ w8Profile.skill_performance ∧
        1 ≤ perf.total_attempts) ∧
    (get_skill_gaps [("l1", w8Profile)] "l1").Sorted gapLE ∧
    (get_strengths [("l1", w8Profile)] "l1").Sorted gapGE :=
  c8_gaps_strengths [("l1", w8Profile)] "l1" w8Profile (by rfl) (by decide)

theorem foldl_dictSet_values {α β : Type} (f : α → String) (g : α → β)
    (xs : List α) :
    ∀ (d0 : List (String × β)) kv,
      kv ∈ xs.foldl (fun d x => dictSet d (f x) (g x)) d0 →
      kv ∈ d0 ∨ ∃ x ∈ xs, kv.1 = f x ∧ kv.2 = g x := by
  induction xs with
  | nil => intro d0 kv hkv; exact Or.inl hkv
  | cons x rest ih =>
      intro d0 kv hkv
      rcases ih _ kv hkv with h1 | ⟨y, hy, h2⟩
      · rcases mem_dictSet d0 (f x) (g x) kv h1 with h2 | h2
        · exact Or.inl h2
        · exact Or.inr ⟨x, List.mem_cons_self x rest,
            by rw [h2], by rw [h2]⟩
      · exact Or.inr ⟨y, List.mem_cons_of_mem x hy, h2⟩

theorem foldl_dictSet_length {α β : Type} (f : α → String) (g : α → β)
    (xs : List α) :
    ∀ (d0 : List (String × β)),
      (xs.foldl (fun d x => dictSet d (f x) (g x)) d0).length ≤
        d0.length + xs.length := by
  induction xs with
  | nil => intro d0; simp
  | cons x rest ih =>
      intro d0
      have h1 := ih (dictSet d0 (f x) (g x))
      have h2 := dictSet_length_le d0 (f x) (g x)
      simp only [List.foldl_cons, List.length_cons]
      omega

/-- C9 amended: with no weak areas `generate_focused_exam` returns the
comprehensive-review plan with empty distributions; otherwise every area
in the distributions receives `max 2 (num_questions // W)` questions,
where `W` counts ALL weak areas found (up to 5 weak topics plus up to 5
weak skills, before capping), and the distributions cover at most the 3
weakest topics and 2 weakest skills. -/
theorem c9_focused_exam_amended (profiles : ProfileStore) (ontology : Ontology) (lid : String)
    (n : Nat) :
    ((get_weak_skills profiles ontology lid (7/10) = [] ∧
      get_weak_topics profiles lid (7/10) = []) →
      generate_focused_exam profiles ontology lid n =
        { focus := "comprehensive_review"
          message := "Great job! No major gaps identified. This will be a comprehensive review."
          skill_distribution := []
          topic_distribution := []
          recommended_topics := [] }) ∧
    (¬ (get_weak_skills profiles ontology lid (7/10) = [] ∧
        get_weak_topics profiles lid (7/10) = []) →
      (generate_focused_exam profiles ontology lid n).focus = "gap_remediation" ∧
      (∀ kv ∈ (generate_focused_exam profiles ontology lid n).topic_distribution,
        kv.2.num_questions = max 2 (n / max
          ((get_weak_topics profiles lid (7/10)).length +
           (get_weak_skills profiles ontology lid (7/10)).length) 1) ∧
        ∃ t ∈ (get_weak_topics profiles lid (7/10)).take 3, kv.1 = t.topic) ∧
      (∀ kv ∈ (generate_focused_exam profiles ontology lid n).skill_distribution,
        kv.2.num_questions = max 2 (n / max
          ((get_weak_topics profiles lid (7/10)).length +
           (get_weak_skills profiles ontology lid (7/10)).length) 1) ∧
        ∃ w ∈ (get_weak_skills profiles ontology lid (7/10)).take 2,
          kv.1 = w.skill_id) ∧
      (generate_focused_exam profiles ontology lid n).topic_distribution.length ≤ 3 ∧
      (generate_focused_exam profiles ontology lid n).skill_distribution.length ≤ 2) := by
  constructor
  · rintro ⟨h1, h2⟩
    unfold generate_focused_exam
    rw [h1, h2]
    rfl
  · intro hne
    have hb : ((get_weak_skills profiles ontology lid (7/10)).isEmpty &&
        (get_weak_topics profiles lid (7/10)).isEmpty) = false := by
      cases hA : (get_weak_skills profiles ontology lid (7/10)).isEmpty
      · simp
      · cases hB : (get_weak_topics profiles lid (7/10)).isEmpty
        · simp
        · exact absurd ⟨List.isEmpty_iff.mp hA, List.isEmpty_iff.mp hB⟩ hne
    unfold generate_focused_exam
    dsimp only
    rw [hb, if_neg (show ¬ (false = true) by simp)]
    dsimp only
    refine ⟨rfl, ?_, ?_, ?_, ?_⟩
    · intro kv hkv
      rcases foldl_dictSet_values (fun t => t.topic)
          (fun t => (⟨max 2 (n / max ((get_weak_topics profiles lid (7/10)).length + (get_weak_skills profiles ontology lid (7/10)).length) 1), fmtPct t.accuracy⟩ : TopicDist))
          ((get_weak_topics profiles lid (7/10)).take 3) [] kv hkv with
        h1 | ⟨t, ht, h2, h3⟩
      · cases h1
      · exact ⟨by rw [h3], t, ht, h2⟩
    · intro kv hkv
      rcases foldl_dictSet_values (fun w => w.skill_id)
          (fun w => (⟨w.skill_name, max 2 (n / max ((get_weak_topics profiles lid (7/10)).length + (get_weak_skills profiles ontology lid (7/10)).length) 1), fmtPct w.accuracy⟩ : SkillDist))
          ((get_weak_skills profiles ontology lid (7/10)).take 2) [] kv hkv with
        h1 | ⟨w, hw, h2, h3⟩
      · cases h1
      · exact ⟨by rw [h3], w, hw, h2⟩
    · have hlen := foldl_dictSet_length (fun t => t.topic)
        (fun t => (⟨max 2 (n / max ((get_weak_topics profiles lid (7/10)).length + (get_weak_skills profiles ontology lid (7/10)).length) 1), fmtPct t.accuracy⟩ : TopicDist))
        ((get_weak_topics profiles lid (7/10)).take 3) []
      have htake : ((get_weak_topics profiles lid (7/10)).take 3).length ≤ 3 := by
        simp [List.length_take]
      simp only [List.length_nil, Nat.zero_add] at hlen
      omega
    · have hlen := foldl_dictSet_length (fun w => w.skill_id)
        (fun w => (⟨w.skill_name, max 2 (n / max ((get_weak_topics profiles lid (7/10)).length + (get_weak_skills profiles ontology lid (7/10)).length) 1), fmtPct w.accuracy⟩ : SkillDist))
        ((get_weak_skills profiles ontology lid (7/10)).take 2) []
      have htake : ((get_weak_skills profiles ontology lid (7/10)).take 2).length ≤ 2 := by
        simp [List.length_take]
      simp only [List.length_nil, Nat.zero_add] at hlen
      omega
/-- C9 counterexample: with 4 weak topics and no weak skills,
`num_questions = 12` is divided by the uncapped weak-area count 4, so each
of the 3 selected topics gets 3 questions — not the `max 2 (12 / 3) = 4`
an even split across the (at most 3 + 2) selected areas would give. -/
theorem c9_focused_exam_counterexample :
    ((get_weak_topics [("l1", c9Profile)] "l1" (7/10)).length = 4) ∧
    ((get_weak_skills [("l1", c9Profile)] [] "l1" (7/10)).length = 0) ∧
    (generate_focused_exam [("l1", c9Profile)] [] "l1"
      12).topic_distribution.length = 3 ∧
    dictGet (generate_focused_exam [("l1", c9Profile)] [] "l1"
      12).topic_distribution "A" = some ⟨3, "10%"⟩ ∧
    (3 : Nat) ≠ max 2 (12 / 3) := by
  with_unfolding_all decide

/-- C9 amended witness: the four-weak-topic profile with 12 questions. -/
theorem c9_focused_exam_amended_witness :
    (generate_focused_exam [("l1", c9Profile)] [] "l1" 12).focus =
      "gap_remediation" ∧
    (∀ kv ∈ (generate_focused_exam [("l1", c9Profile)] [] "l1"
        12).topic_distribution,
      kv.2.num_questions = max 2 (12 / max
        ((get_weak_topics [("l1", c9Profile)] "l1" (7/10)).length +
         (get_weak_skills [("l1", c9Profile)] [] "l1" (7/10)).length) 1) ∧
      ∃ t ∈ (get_weak_topics [("l1", c9Profile)] "l1" (7/10)).take 3,
        kv.1 = t.topic) ∧
    (∀ kv ∈ (generate_focused_exam [("l1", c9Profile)] [] "l1"
        12).skill_distribution,
      kv.2.num_questions = max 2 (12 / max
        ((get_weak_topics [("l1", c9Profile)] "l1" (7/10)).length +
         (get_weak_skills [("l1", c9Profile)] [] "l1" (7/10)).length) 1) ∧
      ∃ w ∈ (get_weak_skills [("l1", c9Profile)] [] "l1" (7/10)).take 2,
        kv.1 = w.skill_id) ∧
    (generate_focused_exam [("l1", c9Profile)] [] "l1"
      12).topic_distribution.length ≤ 3 ∧
    (generate_focused_exam [("l1", c9Profile)] [] "l1"
      12).skill_distribution.length ≤ 2 :=
  (c9_focused_exam_amended [("l1", c9Profile)] [] "l1" 12).2
    (by with_unfolding_all decide)

/-- C6: `get_next_milestone` walks the fixed ladder
Beginner(≥5 questions) → Explorer(≥3 topics) → Committed(≥3 exams) →
Proficient(≥25 questions, ≥70%) → Expert(≥50, ≥85%) → Master(≥100, ≥90%)
in order: `next` is the first unmet milestone, `current` the last milestone
of the met prefix (`"Novice"` when none is met), and when every milestone
is met the result is current = "Master" with progress "Complete". -/
theorem c6_milestone_ladder (profiles : ProfileStore) (lid : String)
    (p : LearnerProfile) (hp : dictGet profiles lid = some p) :
    (metPrefixLen (performance_stats p) < 6 →
      (get_next_milestone profiles lid).next =
        milestoneNames.getD (metPrefixLen (performance_stats p)) "" ∧
      (get_next_milestone profiles lid).current =
        (if metPrefixLen (performance_stats p) = 0 then "Novice"
         else milestoneNames.getD (metPrefixLen (performance_stats p) - 1) "")) ∧
    (metPrefixLen (performance_stats p) = 6 →
      (get_next_milestone profiles lid).current = "Master" ∧
      (get_next_milestone profiles lid).next = "Master" ∧
      (get_next_milestone profiles lid).progress = "Complete") := by
  unfold get_next_milestone
  rw [hp]
  dsimp only
  cases h0 : (decide (5 ≤ (performance_stats p).total_questions) : Bool) <;>
  cases h1 : (decide (3 ≤ (performance_stats p).topics_practiced) : Bool) <;>
  cases h2 : (decide (3 ≤ (performance_stats p).exams_completed) : Bool) <;>
  cases h3 : (decide (25 ≤ (performance_stats p).total_questions) &&
    decide ((70 : ℚ) ≤ (performance_stats p).overall_accuracy)) <;>
  cases h4 : (decide (50 ≤ (performance_stats p).total_questions) &&
    decide ((85 : ℚ) ≤ (performance_stats p).overall_accuracy)) <;>
  cases h5 : (decide (100 ≤ (performance_stats p).total_questions) &&
    decide ((90 : ℚ) ≤ (performance_stats p).overall_accuracy)) <;>
    simp [walkAux, milestones, milestoneMet, metPrefixLen, milestoneNames,
      h0, h1, h2, h3, h4, h5, List.takeWhile]

/-- C6 witness: a learner with no attempts is "Novice" with next
milestone "Beginner". -/
theorem c6_milestone_ladder_witness :
    (get_next_milestone [("l1", w6Profile)] "l1").next =
      milestoneNames.getD (metPrefixLen (performance_stats w6Profile)) "" ∧
    (get_next_milestone [("l1", w6Profile)] "l1").current =
      (if metPrefixLen (performance_stats w6Profile) = 0 then "Novice"
       else milestoneNames.getD
         (metPrefixLen (performance_stats w6Profile) - 1) "") :=
  (c6_milestone_ladder [("l1", w6Profile)] "l1" w6Profile (by rfl)).1
    (by with_unfolding_all decide)
